import Mathlib

/-!
Shallow embedding of the emergency state machine of `src/README.jsx`
(elderly-care wearable app: device status SAFE/FALL/SOS/AMBULANCE, a
client-local escalation countdown, an append-only event log, caregiver
roster, and an ESP32 hardware-simulator panel).

Conventions of the embedding:
* Firestore documents are open maps of fields; a field the code never
  writes on a document is modelled as an `Option` that is `none`.
* `serverTimestamp()` is modelled by an explicit `Nat` argument `t`
  passed to each handler; the handler uses the same `t` for the device
  `lastUpdate` and the event `timestamp`, as both writes of one handler
  carry `serverTimestamp()`.
* `updateDoc` on the device record is a record update of the named
  fields; `addDoc` on the events collection appends one event.
-/

namespace ElderlyCare

/-- Device status vocabulary, the wire-level string constants
`"SAFE" | "FALL" | "SOS" | "AMBULANCE"` used throughout `README.jsx`. -/
inductive Status where
  | SAFE
  | FALL
  | SOS
  | AMBULANCE
deriving DecidableEq, Repr

/-- Actor roles: `profile.role` is the string `"elderly"` (the wearer)
or `"caregiver"` (README.jsx lines 265, 286-298). -/
inductive Role where
  | elderly
  | caregiver
deriving DecidableEq, Repr

/-- Event `type` vocabulary: the string constants written by the event
appends in README.jsx (lines 419, 636, 649, 662, 676). -/
inductive EventType where
  | MANUAL_SOS
  | FALL_ESCALATED
  | FALSE_ALARM
  | AMBULANCE_REQUESTED
  | EMERGENCY_RESOLVED
deriving DecidableEq, Repr

/-- Event-level `status` tag values written by the code:
`"ACTIVE"` (lines 421, 638), `"RESOLVED"` (line 651),
`"DISPATCHED"` (line 664). -/
inductive EventStatus where
  | ACTIVE
  | RESOLVED
  | DISPATCHED
deriving DecidableEq, Repr

/-- Vitals sub-document with fields heartRate, spo2, battery (README.jsx line 172). -/
structure Vitals where
  heartRate : Nat
  spo2 : Nat
  battery : Nat
deriving DecidableEq, Repr

/-- The mutable device record: fields `status`, `vitals`, `lastUpdate`
written by the handlers (README.jsx lines 170-174 and the updateDoc
calls). `lastUpdate` is the server-assigned timestamp. -/
structure Device where
  status : Status
  vitals : Vitals
  lastUpdate : Nat
deriving DecidableEq, Repr

/-- One document of the append-only events collection. The code writes
the keys `deviceId`, `type`, `timestamp` on every append, and depending
on the append also `status` (lines 421, 638, 651, 664), `requestedBy`
(line 665) and `resolvedBy` (line 678). No append in the code writes a
key named `actorRole`; the field is kept here (as an always-absent
option) so that statements about that key can be expressed. -/
structure Event where
  deviceId : String
  type : EventType
  timestamp : Nat
  status : Option EventStatus
  requestedBy : Option Role
  resolvedBy : Option Role
  actorRole : Option Role
deriving DecidableEq, Repr

/-- The shared store as one client sees it for one paired device:
the device record plus the full event collection in append order. -/
structure Store where
  deviceId : String
  device : Device
  events : List Event
deriving DecidableEq, Repr

/-- updateDoc of the fields status and lastUpdate on the device record,
the shape shared by every status write in README.jsx. -/
def writeStatus (s : Store) (st : Status) (t : Nat) : Store :=
  { s with device := { s.device with status := st, lastUpdate := t } }

/-- addDoc to the events collection: appends one event document. -/
def appendEvent (s : Store) (e : Event) : Store :=
  { s with events := s.events ++ [e] }

/-- escalateToSOS (README.jsx lines 628-640): updateDoc of status SOS
and lastUpdate, then addDoc of an event with type FALL_ESCALATED and
event status ACTIVE. -/
def escalateToSOS (s : Store) (t : Nat) : Store :=
  appendEvent (writeStatus s .SOS t)
    { deviceId := s.deviceId, type := .FALL_ESCALATED, timestamp := t
      status := some .ACTIVE, requestedBy := none, resolvedBy := none
      actorRole := none }

/-- handleCancelFall (README.jsx lines 642-653): updateDoc of status
SAFE and lastUpdate, then addDoc of an event with type FALSE_ALARM and
event status RESOLVED. -/
def handleCancelFall (s : Store) (t : Nat) : Store :=
  appendEvent (writeStatus s .SAFE t)
    { deviceId := s.deviceId, type := .FALSE_ALARM, timestamp := t
      status := some .RESOLVED, requestedBy := none, resolvedBy := none
      actorRole := none }

/-- handleRequestAmbulance (README.jsx lines 655-667): updateDoc of
status AMBULANCE and lastUpdate, then addDoc of an event with type
AMBULANCE_REQUESTED, event status DISPATCHED, and requestedBy set to
the role of the acting profile. -/
def handleRequestAmbulance (role : Role) (s : Store) (t : Nat) : Store :=
  appendEvent (writeStatus s .AMBULANCE t)
    { deviceId := s.deviceId, type := .AMBULANCE_REQUESTED, timestamp := t
      status := some .DISPATCHED, requestedBy := some role, resolvedBy := none
      actorRole := none }

/-- handleResolveEmergency (README.jsx lines 669-680): updateDoc of
status SAFE and lastUpdate, then addDoc of an event with type
EMERGENCY_RESOLVED and resolvedBy set to the role of the acting
profile. Note that this append writes no event-level status key. -/
def handleResolveEmergency (role : Role) (s : Store) (t : Nat) : Store :=
  appendEvent (writeStatus s .SAFE t)
    { deviceId := s.deviceId, type := .EMERGENCY_RESOLVED, timestamp := t
      status := none, requestedBy := none, resolvedBy := some role
      actorRole := none }

/-- The dashboard SOS button press (README.jsx lines 412-422): updateDoc
of status SOS and lastUpdate, then addDoc of an event with type
MANUAL_SOS and event status ACTIVE. -/
def manualSOSPress (s : Store) (t : Nat) : Store :=
  appendEvent (writeStatus s .SOS t)
    { deviceId := s.deviceId, type := .MANUAL_SOS, timestamp := t
      status := some .ACTIVE, requestedBy := none, resolvedBy := none
      actorRole := none }

/-- triggerFall of the ESP32 simulator (README.jsx lines 815-827):
updateDoc of fallVitals (the current vitals with heartRate spiked to
110), status FALL, and lastUpdate. Appends no event. -/
def triggerFall (s : Store) (v : Vitals) (t : Nat) : Store :=
  { s with device := { status := .FALL
                       vitals := { v with heartRate := 110 }
                       lastUpdate := t } }

/-- triggerSOS of the ESP32 simulator (README.jsx lines 829-837):
updateDoc of status SOS and lastUpdate. Appends no event. -/
def triggerSOS (s : Store) (t : Nat) : Store :=
  writeStatus s .SOS t

/-- resetDevice of the ESP32 simulator (README.jsx lines 839-848):
updateDoc of status SAFE and lastUpdate. Appends no event. -/
def resetDevice (s : Store) (t : Nat) : Store :=
  writeStatus s .SAFE t

/-- syncToFirebase of the ESP32 simulator (README.jsx lines 805-813):
updateDoc of the vitals, of a status that is forcedStatus if given,
else the current device status if a device record is loaded, else SAFE,
and of lastUpdate. The two JavaScript or-else fallbacks become nested
Option.getD. Appends no event. -/
def syncToFirebase (s : Store) (v : Vitals) (forcedStatus : Option Status)
    (currentDeviceState : Option Device) (t : Nat) : Store :=
  { s with device :=
      { status := forcedStatus.getD ((currentDeviceState.map Device.status).getD .SAFE)
        vitals := v
        lastUpdate := t } }

/-- The vitals-change effect under auto-fluctuate (README.jsx lines
798-803): whenever autoUpdate is on, each vitals change calls
syncToFirebase with forced status SAFE. -/
def autoVitalsSync (s : Store) (v : Vitals) (currentDeviceState : Option Device)
    (t : Nat) : Store :=
  syncToFirebase s v (some .SAFE) currentDeviceState t

/-! ### Client-side guard layer

The handlers above perform no checks of their own: the guards of the
transition system live in the JSX rendering conditions, which decide
whether the button invoking a handler exists at all for a given role
and observed status:

* the AlertOverlay is mounted only when the status is FALL, SOS or
  AMBULANCE (README.jsx line 244), so the dashboard (and its manual
  SOS button, shown only to the elderly role, lines 408-431) is
  reachable only while the status is SAFE, the overlay otherwise
  covering the whole screen (absolute inset-0 z-50, line 686);
* Cancel: isFall, and the profile role equals elderly (line 743);
* Call Ambulance: isFall or isSOS, and the profile role equals
  caregiver (line 752);
* Mark as Resolved: `isSOS || isAmbulance`, either role (line 761);
* the escalation timer runs only while `isFall` (lines 611-626).
-/

/-- The five transition requests a client can issue. -/
inductive ClientAction where
  | cancelFall
  | requestAmbulance
  | resolveEmergency
  | manualSOS
  | escalate
deriving DecidableEq, Repr

/-- The status component of each rendering guard (which observed
statuses make the action available at all). -/
def stateAllowed (st : Status) : ClientAction → Bool
  | .cancelFall => st = .FALL
  | .requestAmbulance => st = .FALL || st = .SOS
  | .resolveEmergency => st = .SOS || st = .AMBULANCE
  | .manualSOS => st = .SAFE
  | .escalate => st = .FALL

/-- The role component of each rendering guard. -/
def roleAllowed (role : Role) : ClientAction → Bool
  | .cancelFall => role = .elderly
  | .requestAmbulance => role = .caregiver
  | .resolveEmergency => true
  | .manualSOS => role = .elderly
  | .escalate => true

/-- An action is available exactly when its button (or timer) is
rendered: both guard components hold. -/
def actionEnabled (role : Role) (st : Status) (a : ClientAction) : Bool :=
  stateAllowed st a && roleAllowed role a

/-- Rejection outcomes of the §7 error taxonomy for guard failures:
the role check failing is PermissionDenied, the state check failing is
InvalidState. In the code both are silent: the handler is simply never
invoked, so no write and no append happen. -/
inductive TransitionError where
  | PermissionDenied
  | InvalidState
deriving DecidableEq, Repr

/-- A transition request by a client of role `role`: if the rendering
guard holds the corresponding handler runs against the store, otherwise
nothing runs (the store is returned untouched) and the request is
classified by which guard component failed. -/
def requestTransition (role : Role) (a : ClientAction) (s : Store) (t : Nat) :
    Store × Option TransitionError :=
  if actionEnabled role s.device.status a then
    (match a with
     | .cancelFall => handleCancelFall s t
     | .requestAmbulance => handleRequestAmbulance role s t
     | .resolveEmergency => handleResolveEmergency role s t
     | .manualSOS => manualSOSPress s t
     | .escalate => escalateToSOS s t, none)
  else
    (s, some (if stateAllowed s.device.status a
              then .PermissionDenied else .InvalidState))

/-! ### Escalation countdown

AlertOverlay keeps `countdown` in local state, initialised to 15
(line 606). The interval effect (lines 611-626) runs only while
`isFall && countdown > 0`; each tick maps the previous value `prev` to
`prev - 1`, except that at `prev <= 1` it clears the interval, calls
escalateToSOS, and stores 0. We track the pair (countdown, number of
escalateToSOS calls so far) and fold it over the per-tick observations
of `isFall`. -/

/-- One interval tick of the AlertOverlay countdown, given whether the
client currently observes status FALL. Returns the new countdown and
escalation-call count. -/
def tickOnce (isFall : Bool) (st : Nat × Nat) : Nat × Nat :=
  if isFall && st.1 > 0 then
    if st.1 ≤ 1 then (0, st.2 + 1) else (st.1 - 1, st.2)
  else st

/-- Folds `tickOnce` over a sequence of per-tick FALL observations. -/
def runTicks (obs : List Bool) (st : Nat × Nat) : Nat × Nat :=
  obs.foldl (fun s b => tickOnce b s) st

/-! ### Read side: events and caregivers subscriptions -/

/-- The in-memory reconstruction of the history of the paired device
(README.jsx lines 118-124): filter the full event set on `deviceId`,
then sort by timestamp descending (comparator
`(b.timestamp || 0) - (a.timestamp || 0)`; a stable sort, as in modern
JavaScript engines). -/
def myEvents (deviceId : String) (allEvents : List Event) : List Event :=
  (allEvents.filter (fun e => e.deviceId = deviceId)).mergeSort
    (fun a b => b.timestamp ≤ a.timestamp)

/-- A caregiver document (README.jsx lines 472-478): the code writes
keys `deviceId`, `name`, `phone`, `priority`; `id` is store-assigned. -/
structure Caregiver where
  id : Nat
  deviceId : String
  name : String
  phone : String
  priority : Nat
deriving DecidableEq, Repr

/-- The in-memory caregiver list of the paired device (README.jsx
lines 129-134): filter the caregiver collection on `deviceId`, then
sort by priority ascending (comparator `a.priority - b.priority`). -/
def myCaregivers (deviceId : String) (allCaregivers : List Caregiver) :
    List Caregiver :=
  (allCaregivers.filter (fun c => c.deviceId = deviceId)).mergeSort
    (fun a b => a.priority ≤ b.priority)

/-- handleAdd of CaregiversScreen (README.jsx lines 471-481): addDoc of
a caregiver document whose priority is the length of the subscribed
caregiver list of the paired device plus one; on a collection holding
only this device, that length is the collection length. The id field
models the store-assigned document id. -/
def handleAdd (cs : List Caregiver) (deviceId : String) (id : Nat)
    (name phone : String) : List Caregiver :=
  cs ++ [{ id := id, deviceId := deviceId, name := name, phone := phone
           priority := cs.length + 1 }]

/-- handleRemove of CaregiversScreen (README.jsx lines 483-485):
deleteDoc of the caregiver document with the given id. -/
def handleRemove (cs : List Caregiver) (id : Nat) : List Caregiver :=
  cs.filter (fun c => c.id ≠ id)

/-! ### Sample stores used to instantiate theorems -/

/-- A store whose device is SAFE with the baseline vitals of pairing
(README.jsx line 172) and an empty event log. -/
def storeSAFE : Store :=
  { deviceId := "ESP32-AAAAAA"
    device := { status := .SAFE, vitals := ⟨75, 98, 100⟩, lastUpdate := 0 }
    events := [] }

/-- A store whose device currently reports a FALL. -/
def storeFALL : Store :=
  { deviceId := "ESP32-AAAAAA"
    device := { status := .FALL, vitals := ⟨110, 98, 100⟩, lastUpdate := 1 }
    events := [] }

/-- A store whose device currently reports an SOS. -/
def storeSOS : Store :=
  { deviceId := "ESP32-AAAAAA"
    device := { status := .SOS, vitals := ⟨110, 98, 100⟩, lastUpdate := 2 }
    events := [] }

/-! ### Helper lemmas on the countdown fold -/

theorem runTicks_cons (b : Bool) (obs : List Bool) (st : Nat × Nat) :
    runTicks (b :: obs) st = runTicks obs (tickOnce b st) := rfl

theorem runTicks_append_obs (l₁ l₂ : List Bool) (st : Nat × Nat) :
    runTicks (l₁ ++ l₂) st = runTicks l₂ (runTicks l₁ st) := by
  simp [runTicks, List.foldl_append]

theorem runTicks_zero_countdown (obs : List Bool) (f : Nat) :
    runTicks obs (0, f) = (0, f) := by
  induction obs with
  | nil => rfl
  | cons b obs ih => rw [runTicks_cons]; simpa [tickOnce] using ih

theorem runTicks_replicate_true (n : Nat) :
    ∀ (c f : Nat), 0 < c →
      runTicks (List.replicate n true) (c, f) =
        if c ≤ n then (0, f + 1) else (c - n, f) := by
  induction n with
  | zero =>
    intro c f hc
    simp only [List.replicate, runTicks, List.foldl_nil]
    rw [if_neg (by omega)]
    simp
  | succ n ih =>
    intro c f hc
    rw [List.replicate_succ, runTicks_cons]
    by_cases h1 : c ≤ 1
    · have hc1 : c = 1 := by omega
      subst hc1
      have ht : tickOnce true (1, f) = (0, f + 1) := by simp [tickOnce]
      rw [ht, runTicks_zero_countdown, if_pos (by omega)]
    · have ht : tickOnce true (c, f) = (c - 1, f) := by
        unfold tickOnce
        split_ifs with hA
        · rfl
        · simp only [Bool.true_and, decide_eq_true_eq] at hA
          omega
      rw [ht, ih (c - 1) f (by omega)]
      by_cases h2 : c ≤ n + 1
      · rw [if_pos (by omega), if_pos (by omega)]
      · rw [if_neg (by omega), if_neg (by omega)]
        have he : c - 1 - n = c - (n + 1) := by omega
        rw [he]

theorem runTicks_all_false (obs : List Bool) :
    ∀ (st : Nat × Nat), (∀ b ∈ obs, b = false) → runTicks obs st = st := by
  induction obs with
  | nil => intro st _; rfl
  | cons b obs ih =>
    intro st h
    have hb : b = false := h b (List.mem_cons_self b obs)
    subst hb
    rw [runTicks_cons]
    have ht : tickOnce false st = st := by simp [tickOnce]
    rw [ht]
    exact ih st (fun x hx => h x (List.mem_cons_of_mem _ hx))

/-- C1: a client observing status FALL runs a countdown starting at 15
that decrements one per tick; on the tick that reaches zero it calls
escalateToSOS exactly once (for n ticks the escalation count is 1 when
15 ≤ n and 0 before, and the countdown value is 15 - n, staying 0 once
expired, so the timer is stopped); escalateToSOS issues the FALL to SOS
status write and appends exactly one FALL_ESCALATED event with event
status ACTIVE. -/
theorem fall_countdown_escalates_exactly_once :
    (∀ n : Nat, runTicks (List.replicate n true) (15, 0) =
      (15 - n, if 15 ≤ n then 1 else 0)) ∧
    (∀ (s : Store) (t : Nat),
      escalateToSOS s t =
        { deviceId := s.deviceId
          device := { status := .SOS, vitals := s.device.vitals, lastUpdate := t }
          events := s.events ++
            [{ deviceId := s.deviceId, type := .FALL_ESCALATED, timestamp := t
               status := some .ACTIVE, requestedBy := none, resolvedBy := none
               actorRole := none }] }) := by
  constructor
  · intro n
    rw [runTicks_replicate_true n 15 0 (by omega)]
    by_cases h : 15 ≤ n
    · rw [if_pos h, if_pos h, Nat.sub_eq_zero_of_le h]
    · rw [if_neg h, if_neg h]
  · intro s t
    rfl

/-- C6: if the observed status moves away from FALL after m < 15 ticks
and stays away, the countdown holds its positive value 15 - m and the
escalation count stays 0, so escalateToSOS (the FALL to SOS write and
the FALL_ESCALATED append) is never called by this client. -/
theorem status_change_away_cancels_countdown :
    ∀ (m : Nat) (post : List Bool), m < 15 → (∀ b ∈ post, b = false) →
      runTicks (List.replicate m true ++ post) (15, 0) = (15 - m, 0) := by
  intro m post hm hpost
  rw [runTicks_append_obs, runTicks_replicate_true m 15 0 (by omega),
    if_neg (by omega)]
  exact runTicks_all_false post _ hpost

/-- Witness for C6 at m = 4 ticks and a three-tick all-false tail. -/
theorem status_change_away_cancels_countdown_witness :
    (4 < 15 ∧ (∀ b ∈ [false, false, false], b = false)) ∧
    runTicks (List.replicate 4 true ++ [false, false, false]) (15, 0) = (11, 0) :=
  ⟨⟨by decide, by decide⟩,
   status_change_away_cancels_countdown 4 [false, false, false]
     (by decide) (by decide)⟩

/-- C2: a transition request whose rendering guard fails is rejected
with a PermissionDenied or InvalidState outcome and leaves the store
untouched: no device write and no event append. -/
theorem guard_failed_request_rejected_without_write :
    ∀ (role : Role) (a : ClientAction) (s : Store) (t : Nat),
      actionEnabled role s.device.status a = false →
      requestTransition role a s t = (s, some .PermissionDenied) ∨
      requestTransition role a s t = (s, some .InvalidState) := by
  intro role a s t h
  by_cases hs : stateAllowed s.device.status a = true
  · left
    simp [requestTransition, h, hs]
  · right
    simp [requestTransition, h, hs]

/-- Witness for C2: a caregiver attempting cancel-fall on a FALL device
is rejected and the store is unchanged. -/
theorem guard_failed_request_rejected_without_write_witness :
    actionEnabled .caregiver storeFALL.device.status .cancelFall = false ∧
    (requestTransition .caregiver .cancelFall storeFALL 3 =
        (storeFALL, some .PermissionDenied) ∨
     requestTransition .caregiver .cancelFall storeFALL 3 =
        (storeFALL, some .InvalidState)) :=
  ⟨by decide,
   guard_failed_request_rejected_without_write .caregiver .cancelFall storeFALL 3
     (by decide)⟩

/-- C5: a cancel-fall request by a caregiver-role actor leaves the
store (in particular the device status) unchanged, and the cancel-fall
guard holds exactly for the wearer (elderly) role with status exactly
FALL. -/
theorem cancel_fall_guard_wearer_only :
    ∀ (s : Store) (t : Nat) (role : Role) (st : Status),
      (requestTransition .caregiver .cancelFall s t).1 = s ∧
      (actionEnabled role st .cancelFall = true ↔
        role = .elderly ∧ st = .FALL) := by
  intro s t role st
  constructor
  · simp [requestTransition, actionEnabled, roleAllowed]
  · cases role <;> cases st <;> decide

/-- Witness for C5: a caregiver cancel-fall attempt on a FALL device
leaves the store unchanged. -/
theorem cancel_fall_guard_wearer_only_witness :
    (requestTransition .caregiver .cancelFall storeFALL 2).1 = storeFALL :=
  (cancel_fall_guard_wearer_only storeFALL 2 .caregiver .FALL).1

/-- C10: under auto-fluctuate every periodic vitals sync writes status
SAFE together with the vitals (never a vitals-only write), so the
status field keeps its value only when it already was SAFE: a
concurrently set FALL, SOS or AMBULANCE is overwritten. -/
theorem auto_fluctuate_sync_writes_safe_status :
    ∀ (s : Store) (v : Vitals) (cur : Option Device) (t : Nat),
      (autoVitalsSync s v cur t).device.status = .SAFE ∧
      (autoVitalsSync s v cur t).device.vitals = v ∧
      (autoVitalsSync s v cur t).events = s.events ∧
      ((autoVitalsSync s v cur t).device.status = s.device.status ↔
        s.device.status = .SAFE) := by
  intro s v cur t
  refine ⟨rfl, rfl, rfl, ?_⟩
  exact eq_comm

/-- Witness for C10: an auto-fluctuate sync against a FALL device
writes status SAFE. -/
theorem auto_fluctuate_sync_writes_safe_status_witness :
    (autoVitalsSync storeFALL ⟨80, 97, 90⟩ (some storeFALL.device) 9).device.status = .SAFE :=
  (auto_fluctuate_sync_writes_safe_status storeFALL ⟨80, 97, 90⟩
    (some storeFALL.device) 9).1

/-- Counterexample to C3: the simulator hardware SOS press changes the
device status (SAFE to SOS, vitals untouched, so this is not a
vitals-only update) yet appends no event at all, so this transition is
not paired with exactly one event append of the mandated type. -/
theorem hardware_sos_transition_appends_no_event_cex :
    (triggerSOS storeSAFE 5).device.status = .SOS ∧
    storeSAFE.device.status = .SAFE ∧
    (triggerSOS storeSAFE 5).device.vitals = storeSAFE.device.vitals ∧
    (triggerSOS storeSAFE 5).events = storeSAFE.events := by
  refine ⟨rfl, rfl, rfl, rfl⟩

/-- C3 amended: every client-issued status transition (manual SOS,
countdown escalation, wearer cancel, ambulance request, resolve) is
paired with exactly one event append whose type is exactly the one the
section 4.1 table mandates, while the device-origin simulator writes
(hardware fall, hardware SOS, reset-to-SAFE, vitals sync) append no
event. -/
theorem client_transitions_paired_with_mandated_event :
    ∀ (s : Store) (t : Nat) (role : Role) (v : Vitals) (fs : Option Status)
      (cur : Option Device),
      ((manualSOSPress s t).device.status = .SOS ∧
        (manualSOSPress s t).events = s.events ++
          [{ deviceId := s.deviceId, type := .MANUAL_SOS, timestamp := t
             status := some .ACTIVE, requestedBy := none, resolvedBy := none
             actorRole := none }]) ∧
      ((escalateToSOS s t).device.status = .SOS ∧
        (escalateToSOS s t).events = s.events ++
          [{ deviceId := s.deviceId, type := .FALL_ESCALATED, timestamp := t
             status := some .ACTIVE, requestedBy := none, resolvedBy := none
             actorRole := none }]) ∧
      ((handleCancelFall s t).device.status = .SAFE ∧
        (handleCancelFall s t).events = s.events ++
          [{ deviceId := s.deviceId, type := .FALSE_ALARM, timestamp := t
             status := some .RESOLVED, requestedBy := none, resolvedBy := none
             actorRole := none }]) ∧
      ((handleRequestAmbulance role s t).device.status = .AMBULANCE ∧
        (handleRequestAmbulance role s t).events = s.events ++
          [{ deviceId := s.deviceId, type := .AMBULANCE_REQUESTED, timestamp := t
             status := some .DISPATCHED, requestedBy := some role
             resolvedBy := none, actorRole := none }]) ∧
      ((handleResolveEmergency role s t).device.status = .SAFE ∧
        (handleResolveEmergency role s t).events = s.events ++
          [{ deviceId := s.deviceId, type := .EMERGENCY_RESOLVED, timestamp := t
             status := none, requestedBy := none, resolvedBy := some role
             actorRole := none }]) ∧
      (triggerFall s v t).events = s.events ∧
      (triggerSOS s t).events = s.events ∧
      (resetDevice s t).events = s.events ∧
      (syncToFirebase s v fs cur t).events = s.events := by
  intro s t role v fs cur
  refine ⟨⟨rfl, rfl⟩, ⟨rfl, rfl⟩, ⟨rfl, rfl⟩, ⟨rfl, rfl⟩, ⟨rfl, rfl⟩,
    rfl, rfl, rfl, rfl⟩

/-- Counterexample to C4: the simulator reset takes a device from FALL
to SAFE while appending no event, so this SAFE-after-FALL transition is
accompanied by neither a FALSE_ALARM nor an EMERGENCY_RESOLVED event
(the event log stays empty). -/
theorem reset_fall_to_safe_without_event_cex :
    storeFALL.device.status = .FALL ∧
    (resetDevice storeFALL 7).device.status = .SAFE ∧
    (resetDevice storeFALL 7).events = [] := by
  refine ⟨rfl, rfl, rfl⟩

/-- C4 amended: among client-issued transition requests, a device
observed at FALL can reach SAFE only through the wearer (elderly)
cancel action, which appends exactly one FALSE_ALARM event whose
timestamp is at most the lastUpdate of the written status; the
simulator reset-to-SAFE write can additionally take the status from
FALL to SAFE with no accompanying event. -/
theorem fall_to_safe_client_path_is_wearer_cancel :
    ∀ (role : Role) (a : ClientAction) (s : Store) (t : Nat),
      s.device.status = .FALL →
      (requestTransition role a s t).1.device.status = .SAFE →
      a = .cancelFall ∧ role = .elderly ∧
      (requestTransition role a s t).1.events = s.events ++
        [{ deviceId := s.deviceId, type := .FALSE_ALARM, timestamp := t
           status := some .RESOLVED, requestedBy := none, resolvedBy := none
           actorRole := none }] ∧
      t ≤ (requestTransition role a s t).1.device.lastUpdate := by
  intro role a s t hFall hSafe
  cases a <;> cases role <;>
    simp_all [requestTransition, actionEnabled, stateAllowed, roleAllowed,
      handleCancelFall, handleRequestAmbulance, handleResolveEmergency,
      manualSOSPress, escalateToSOS, writeStatus, appendEvent]

/-- Witness for the amended C4: the wearer cancel on a FALL device
reaches SAFE and logs the FALSE_ALARM event. -/
theorem fall_to_safe_client_path_is_wearer_cancel_witness :
    (storeFALL.device.status = .FALL ∧
      (requestTransition .elderly .cancelFall storeFALL 3).1.device.status = .SAFE) ∧
    (requestTransition .elderly .cancelFall storeFALL 3).1.events =
      storeFALL.events ++
        [{ deviceId := storeFALL.deviceId, type := .FALSE_ALARM, timestamp := 3
           status := some .RESOLVED, requestedBy := none, resolvedBy := none
           actorRole := none }] :=
  ⟨⟨by decide, by decide⟩,
   (fall_to_safe_client_path_is_wearer_cancel .elderly .cancelFall storeFALL 3
     (by decide) (by decide)).2.2.1⟩

/-- Counterexample to C7: when a caregiver requests an ambulance from
status SOS, the single appended event carries the role under the key
requestedBy and has no actorRole key at all (modelled as the actorRole
field being none), so the claimed event shape with actorRole caregiver
is false at this concrete input. -/
theorem ambulance_event_lacks_actor_role_cex :
    (requestTransition .caregiver .requestAmbulance storeSOS 3).1.events.map
        Event.actorRole = [none] ∧
    (requestTransition .caregiver .requestAmbulance storeSOS 3).1.events.map
        Event.requestedBy = [some .caregiver] ∧
    (requestTransition .caregiver .requestAmbulance storeSOS 3).1.events.map
        Event.type = [.AMBULANCE_REQUESTED] := by
  refine ⟨rfl, rfl, rfl⟩

/-- C7 amended: when a caregiver requests an ambulance from status SOS
or FALL, the device status becomes AMBULANCE and an event with type
AMBULANCE_REQUESTED, event status DISPATCHED and requestedBy caregiver
is appended (the acting role is recorded under the key requestedBy; no
actorRole key is written); when the wearer then resolves, the status
becomes SAFE and an event with type EMERGENCY_RESOLVED and resolvedBy
elderly is appended. -/
theorem ambulance_then_resolve_scenario :
    ∀ (s : Store) (t₁ t₂ : Nat),
      s.device.status = .SOS ∨ s.device.status = .FALL →
      (requestTransition .caregiver .requestAmbulance s t₁).1.device.status =
          .AMBULANCE ∧
      (requestTransition .caregiver .requestAmbulance s t₁).1.events =
        s.events ++
          [{ deviceId := s.deviceId, type := .AMBULANCE_REQUESTED
             timestamp := t₁, status := some .DISPATCHED
             requestedBy := some .caregiver, resolvedBy := none
             actorRole := none }] ∧
      (requestTransition .elderly .resolveEmergency
          (requestTransition .caregiver .requestAmbulance s t₁).1 t₂).1.device.status =
          .SAFE ∧
      (requestTransition .elderly .resolveEmergency
          (requestTransition .caregiver .requestAmbulance s t₁).1 t₂).1.events =
        s.events ++
          [{ deviceId := s.deviceId, type := .AMBULANCE_REQUESTED
             timestamp := t₁, status := some .DISPATCHED
             requestedBy := some .caregiver, resolvedBy := none
             actorRole := none },
           { deviceId := s.deviceId, type := .EMERGENCY_RESOLVED
             timestamp := t₂, status := none, requestedBy := none
             resolvedBy := some .elderly, actorRole := none }] := by
  intro s t₁ t₂ h
  rcases h with h | h <;>
    simp [requestTransition, actionEnabled, stateAllowed, roleAllowed,
      handleRequestAmbulance, handleResolveEmergency, writeStatus, appendEvent, h]

/-- Witness for the amended C7: the scenario run from the concrete SOS
store. -/
theorem ambulance_then_resolve_scenario_witness :
    (storeSOS.device.status = .SOS ∨ storeSOS.device.status = .FALL) ∧
    (requestTransition .elderly .resolveEmergency
        (requestTransition .caregiver .requestAmbulance storeSOS 3).1 4).1.device.status =
      .SAFE :=
  ⟨Or.inl (by decide),
   (ambulance_then_resolve_scenario storeSOS 3 4 (Or.inl (by decide))).2.2.1⟩

/-- Sample event on the paired device with the earlier timestamp. -/
def eventA : Event :=
  { deviceId := "ESP32-AAAAAA", type := .MANUAL_SOS, timestamp := 10
    status := some .ACTIVE, requestedBy := none, resolvedBy := none
    actorRole := none }

/-- Sample event on a different device. -/
def eventB : Event :=
  { deviceId := "ESP32-BBBBBB", type := .FALSE_ALARM, timestamp := 20
    status := some .RESOLVED, requestedBy := none, resolvedBy := none
    actorRole := none }

/-- Sample event on the paired device with the later timestamp. -/
def eventC : Event :=
  { deviceId := "ESP32-AAAAAA", type := .FALL_ESCALATED, timestamp := 30
    status := some .ACTIVE, requestedBy := none, resolvedBy := none
    actorRole := none }

/-- C8: the per-device history the client reconstructs is a permutation
of the full event set filtered on the paired deviceId, it is sorted by
timestamp descending, and every event in it belongs to the paired
device. -/
theorem events_view_is_filter_sorted_desc :
    ∀ (deviceId : String) (allEvents : List Event),
      List.Perm (myEvents deviceId allEvents)
        (allEvents.filter (fun e => e.deviceId = deviceId)) ∧
      (myEvents deviceId allEvents).Pairwise
        (fun a b => b.timestamp ≤ a.timestamp) ∧
      (∀ e ∈ myEvents deviceId allEvents, e.deviceId = deviceId) := by
  intro did evs
  refine ⟨List.mergeSort_perm _ _, ?_, ?_⟩
  · have hs := @List.sorted_mergeSort Event
      (fun a b : Event => decide (b.timestamp ≤ a.timestamp))
      (fun a b c hab hbc => by
        simp only [decide_eq_true_eq] at hab hbc ⊢
        omega)
      (fun a b => by
        simp only [Bool.or_eq_true, decide_eq_true_eq]
        omega)
      (evs.filter (fun e => e.deviceId = did))
    exact hs.imp (fun h => by simpa using h)
  · intro e he
    simp only [myEvents, List.mem_mergeSort] at he
    simpa using List.of_mem_filter he

/-- Witness for C8 on a three-event collection with one foreign event. -/
theorem events_view_is_filter_sorted_desc_witness :
    eventA ∈ myEvents "ESP32-AAAAAA" [eventA, eventB, eventC] ∧
    eventA.deviceId = "ESP32-AAAAAA" :=
  have hm : eventA ∈ myEvents "ESP32-AAAAAA" [eventA, eventB, eventC] :=
    List.mem_mergeSort.mpr (by decide)
  ⟨hm,
   (events_view_is_filter_sorted_desc "ESP32-AAAAAA" [eventA, eventB, eventC]).2.2
     eventA hm⟩

/-- The caregiver roster reached by the add sequence Alice, Bob, Cara,
then removing Bob (id 2), then adding Dan: the final add sees a
two-element list and assigns priority 3, which Cara already holds. -/
def cgAfterRemoveAdd : List Caregiver :=
  handleAdd
    (handleRemove
      (handleAdd
        (handleAdd (handleAdd [] "ESP32-AAAAAA" 1 "Alice" "111")
          "ESP32-AAAAAA" 2 "Bob" "222")
        "ESP32-AAAAAA" 3 "Cara" "333")
      2)
    "ESP32-AAAAAA" 4 "Dan" "444"

/-- Counterexample to C9: after add Alice, add Bob, add Cara, remove
Bob, add Dan, the priorities are 1, 3, 3 — two caregivers of the same
device share priority 3, so uniqueness is not preserved by every
add/remove sequence. -/
theorem add_remove_add_duplicates_priority_cex :
    cgAfterRemoveAdd.map Caregiver.priority = [1, 3, 3] ∧
    ¬ (cgAfterRemoveAdd.map Caregiver.priority).Nodup := by
  refine ⟨by decide, by decide⟩

/-- Folds handleAdd over a list of caregiver descriptions (id, name,
phone), as a wearer adding caregivers one at a time from an empty
roster. -/
def addAll (deviceId : String) (args : List (Nat × String × String)) :
    List Caregiver :=
  args.foldl (fun cs a => handleAdd cs deviceId a.1 a.2.1 a.2.2) []

theorem addAll_priorities (d : String) :
    ∀ (args : List (Nat × String × String)) (cs : List Caregiver),
      (args.foldl (fun cs a => handleAdd cs d a.1 a.2.1 a.2.2) cs).map
          Caregiver.priority =
        cs.map Caregiver.priority ++ List.range' (cs.length + 1) args.length := by
  intro args
  induction args with
  | nil => intro cs; simp
  | cons a args ih =>
    intro cs
    rw [List.foldl_cons, ih]
    simp [handleAdd, List.range'_succ]

/-- C9 amended: every priority handleAdd assigns is the positive
integer list-length plus one; for every add-only sequence from an empty
roster the priorities are exactly 1..n, hence pairwise distinct; and
the roster presented to viewers is sorted by priority ascending.
(Uniqueness is not preserved once removals are interleaved, see the
counterexample.) -/
theorem caregiver_priorities_add_only_unique_sorted :
    ∀ (d : String) (args : List (Nat × String × String)) (cs : List Caregiver),
      (addAll d args).map Caregiver.priority = List.range' 1 args.length ∧
      ((addAll d args).map Caregiver.priority).Nodup ∧
      (∀ c ∈ addAll d args, 0 < c.priority) ∧
      (myCaregivers d cs).Pairwise (fun a b => a.priority ≤ b.priority) := by
  intro d args cs
  have h1 : (addAll d args).map Caregiver.priority = List.range' 1 args.length := by
    simpa [addAll] using addAll_priorities d args []
  refine ⟨h1, ?_, ?_, ?_⟩
  · rw [h1]
    exact List.nodup_range' 1 args.length
  · intro c hc
    have hmem : c.priority ∈ (addAll d args).map Caregiver.priority :=
      List.mem_map_of_mem _ hc
    rw [h1] at hmem
    rcases List.mem_range'.mp hmem with ⟨i, _, hi⟩
    omega
  · have hs := @List.sorted_mergeSort Caregiver
      (fun a b : Caregiver => decide (a.priority ≤ b.priority))
      (fun a b c hab hbc => by
        simp only [decide_eq_true_eq] at hab hbc ⊢
        omega)
      (fun a b => by
        simp only [Bool.or_eq_true, decide_eq_true_eq]
        omega)
      (cs.filter (fun c => c.deviceId = d))
    exact hs.imp (fun h => by simpa using h)

/-- The caregiver document produced by a single add on an empty roster. -/
def cgSample : Caregiver :=
  { id := 1, deviceId := "D", name := "a", phone := "p", priority := 1 }

/-- Witness for the amended C9: a one-element add sequence yields the
caregiver with positive priority 1. -/
theorem caregiver_priorities_add_only_unique_sorted_witness :
    cgSample ∈ addAll "D" [(1, "a", "p")] ∧ 0 < cgSample.priority :=
  ⟨by decide,
   (caregiver_priorities_add_only_unique_sorted "D" [(1, "a", "p")] []).2.2.1
     cgSample (by decide)⟩

end ElderlyCare
